import Mathlib

/-
Shallow embedding of pysqueezelite.py (class PySqueezelite).

The Python class wraps launching the external squeezelite binary, SSDP
discovery of an LMS server, and a telnet control session (via the external
pylms library).  External effects (the SSDP responses, the pylms player
lookup, the pidof process lookup) are supplied through an explicit `Env`
record; the observable side effects of each operation (discovery query,
connection establishment, process spawn, kill signals) are recorded in an
explicit `Effect` trace so that claims about which effects occur can be
stated and proved.
-/

/-- A device answering the SSDP discovery query: carries an address (`ip`)
and an advertised port, mirroring the fields read on line 117 of the
source (`x.ip`, `x.port`). -/
structure Device where
  ip : String
  port : Nat
deriving DecidableEq, Repr

/-- The pylms player handle obtained from `Server.get_player(mac)`.  Its
attribute table maps a method name to `some result` when the attribute
exists (Python `hasattr`) and invoking it yields that result
(`getattr(self.player, info)()`), and `none` when the attribute is
missing. -/
structure Player where
  attrs : String → Option String

/-- The pylms `Server` object constructed in `connect` (line 133):
`Server(hostname=hostname, port=port)`. -/
structure ServerHandle where
  hostname : Option String
  port : Nat
deriving DecidableEq, Repr

/-- Exceptions the source can raise: `PySqueezeliteError(msg)` (its own
class, lines 12-13), `subprocess.CalledProcessError` from
`check_output` when `pidof` exits nonzero (line 108), and Python
`AttributeError` when a method is invoked on an unset handle. -/
inductive PyErr where
  | pySqueezeliteError (msg : String)
  | calledProcessError (cmd : List String)
  | attributeError (attrName : String)
deriving DecidableEq, Repr

/-- Observable side effects of the operations: an SSDP discovery query
(line 115), establishing the control session (lines 133-135), spawning
the player process with an argument list (line 101), the `pidof` lookup
(line 108) and each `kill -9 pid` call (line 112), and a playback
command sent over the session (lines 148-158). -/
inductive Effect where
  | discovery
  | connectServer (hostname : Option String) (port : Nat)
  | spawn (command : List String)
  | pidofLookup (path : String)
  | killSignal (pid : String)
  | playerCommand (method : String)
deriving DecidableEq, Repr

/-- The instance state of class `PySqueezelite`.  The first seven fields
are the configuration set in `__init__` (lines 60-66; Python defaults:
path "/usr/bin/squeezelite", plname "Squeezelite",
mac "12:34:56:78:90:AB", server None, args None, lmsport 9000,
telnetport 9090).  `devices` and `matches` are assigned by
`__discover_server` (lines 115, 117); `sc` and `player` by `connect`
(lines 133, 135); all four are `none` while unset. -/
structure PySqueezelite where
  path : String
  playername : String
  mac : String
  server : Option String
  args : Option String
  lmsport : Nat
  telnetport : Nat
  devices : Option (List Device)
  matchList : Option (List String)
  sc : Option ServerHandle
  player : Option Player

/-- The external world: the SSDP responses returned by
`discover("ssdp:all")` (falsy entries modelled as `none`, filtered out
by the `if x` comprehension guard on line 115), the pylms
`get_player(mac)` lookup, and the `pidof path` output (`none` when
pidof exits nonzero, which makes `check_output` raise). -/
structure Env where
  responses : List (Option Device)
  getPlayer : String → Option Player
  pidof : String → Option String

/-- Python truthiness of a string: non-empty. -/
def truthyStr (s : String) : Bool := s != ""

/-- Python truthiness of an optional string (`None` and `""` are falsy). -/
def truthyOpt (o : Option String) : Bool :=
  match o with
  | none => false
  | some s => s != ""

/-- Whether an `Except` value is a success. -/
def exceptOk {ε α : Type} (e : Except ε α) : Bool :=
  match e with
  | .ok _ => true
  | .error _ => false

/-- The message raised on lines 120-123 when more than one discovered
device advertises the LMS port. -/
def multipleServersMsg (port : Nat) : String :=
  "Multiple servers found on port " ++ toString port ++
    ". Need to set server ip address when calling PySqueezelite."

/-- The message raised on lines 125-128 when no discovered device
advertises the LMS port. -/
def noServersMsg (port : Nat) : String :=
  "No servers found on port " ++ toString port ++
    ". Please check LMS is running and the correct port has been set."

/-- Line 117: `self.matches = [x.ip for x in self.devices if x.port == self.lmsport]`,
with `self.devices = [x for x in discover("ssdp:all") if x]` from line 115. -/
def lmsMatches (s : PySqueezelite) (responses : List (Option Device)) : List String :=
  ((responses.filterMap id).filter (fun x => x.port == s.lmsport)).map (fun x => x.ip)

/-- `__discover_server` (lines 114-130): collect truthy responses, filter by
the configured LMS port, raise if more than one or zero matches, and
return `matches[0]` otherwise (along with the state updated with the
`devices` and `matches` assignments).  The `headD` default is never
reached: on the success branch `matches` has length exactly one. -/
def PySqueezelite.discover_server (s : PySqueezelite) (responses : List (Option Device)) :
    Except PyErr (String × PySqueezelite) :=
  let devices := responses.filterMap id
  let ms := lmsMatches s responses
  if ms.length > 1 then
    .error (.pySqueezeliteError (multipleServersMsg s.lmsport))
  else if ms.length == 0 then
    .error (.pySqueezeliteError (noServersMsg s.lmsport))
  else
    .ok (ms.headD "", { s with devices := some devices, matchList := some ms })

/-- `__init__` (lines 51-71): store the seven configuration fields, then
check `os.path.isfile(self.path)` and raise `PySqueezeliteError` if the
binary is missing.  The filesystem is supplied as the predicate
`isfile`.  `__init__` performs no network or process activity, so its
effect trace is always empty. -/
def PySqueezelite.init (isfile : String → Bool) (path plname mac : String)
    (server args : Option String) (lmsport telnetport : Nat) :
    Except PyErr PySqueezelite × List Effect :=
  let s : PySqueezelite :=
    { path := path, playername := plname, mac := mac, server := server, args := args,
      lmsport := lmsport, telnetport := telnetport,
      devices := none, matchList := none, sc := none, player := none }
  if !(isfile path) then
    (.error (.pySqueezeliteError ("Can\x27t find squeezelite at " ++ path)), [])
  else
    (.ok s, [])

/-- `connect` (lines 132-135): build the pylms `Server` handle, open the
connection, and resolve the player handle for the configured mac.  The
pylms library is external to this repository; its connection and player
lookup are modelled through `Env.getPlayer`. -/
def PySqueezelite.connect (s : PySqueezelite) (env : Env)
    (hostname : Option String) (port : Nat) : PySqueezelite × List Effect :=
  ({ s with sc := some { hostname := hostname, port := port },
            player := env.getPlayer s.mac },
   [Effect.connectServer hostname port])

/-- Lines 81-98: the `command` list assembled in `start`.  Starts with the
binary path and the daemonize flag `-z`; each subsequent block is guarded
by Python truthiness of the corresponding field.  Note line 98 appends
`self.args` as a single list element: `command += [self.args]`. -/
def buildCommand (s : PySqueezelite) : List String :=
  [s.path, "-z"]
    ++ (if truthyStr s.playername then ["-n", s.playername] else [])
    ++ (if truthyStr s.mac then ["-m", s.mac] else [])
    ++ (match s.server with
        | some srv => if srv != "" then ["-s", srv] else []
        | none => [])
    ++ (match s.args with
        | some a => if a != "" then [a] else []
        | none => [])

/-- `start` (lines 73-101): if `self.server` is falsy, run discovery and
assign the result to `self.server`; then `connect(self.server,
self.telnetport)`; then assemble the command list and spawn the
process. -/
def PySqueezelite.start (s : PySqueezelite) (env : Env) :
    Except PyErr PySqueezelite × List Effect :=
  match (if truthyOpt s.server then (Except.ok s, ([] : List Effect))
         else
           match s.discover_server env.responses with
           | .error e => (.error e, [Effect.discovery])
           | .ok (ip, s') => (.ok { s' with server := some ip }, [Effect.discovery])) with
  | (.error e, ef) => (.error e, ef)
  | (.ok s1, ef) =>
      let (s2, ef2) := s1.connect env s1.server s1.telnetport
      let command := buildCommand s2
      (.ok s2, ef ++ ef2 ++ [Effect.spawn command])

/-- `kill` (lines 104-112): `subprocess.check_output(["pidof", self.path])`
raises `CalledProcessError` when pidof finds no process (nonzero exit,
modelled as `Env.pidof` returning `none`); otherwise the stripped output
is split on spaces and `kill -9` is called for each pid.  `kill` assigns
no instance attribute, so it returns no state. -/
def PySqueezelite.kill (s : PySqueezelite) (env : Env) :
    Except PyErr Unit × List Effect :=
  match env.pidof s.path with
  | none =>
      (.error (.calledProcessError ["pidof", s.path]), [Effect.pidofLookup s.path])
  | some out =>
      let pids := out.trim.splitOn " "
      (.ok (), Effect.pidofLookup s.path :: pids.map Effect.killSignal)

/-- `get_player_info` (lines 138-146).  Line 141 reads `self.connect`
without calling it (a bare attribute reference, not a call), so the
guard `if not self.player` has no effect: no connection is made and no
state changes.  Then `hasattr`/`getattr` dispatch on the player handle:
the attribute result when it exists, `None` otherwise.  When the player
handle is unset or `None`, no player-query attribute exists on it, so
the dispatch yields `None`. -/
def PySqueezelite.get_player_info (s : PySqueezelite) (info : String) :
    Option String × PySqueezelite × List Effect :=
  let result :=
    match s.player with
    | some p => p.attrs info
    | none => none
  (result, s, [])

/-- `play_pause` (lines 148-149): `self.player.toggle()`; an unset player
handle makes the attribute access fail, otherwise the command goes to
the external session.  No instance attribute is assigned. -/
def PySqueezelite.play_pause (s : PySqueezelite) : Except PyErr Unit × List Effect :=
  match s.player with
  | none => (.error (.attributeError "toggle"), [])
  | some _ => (.ok (), [Effect.playerCommand "toggle"])

/-- A list containing two distinct elements has length at least two. -/
theorem one_lt_length_of_mem_ne {α : Type} {l : List α} {a b : α}
    (ha : a ∈ l) (hb : b ∈ l) (hab : a ≠ b) : 1 < l.length := by
  cases l with
  | nil => cases ha
  | cons x xs =>
    cases ha with
    | head =>
      cases hb with
      | head => exact absurd rfl hab
      | tail _ hb' =>
        have hpos : 0 < xs.length := List.length_pos.mpr (List.ne_nil_of_mem hb')
        simp only [List.length_cons]
        omega
    | tail _ ha' =>
      have hpos : 0 < xs.length := List.length_pos.mpr (List.ne_nil_of_mem ha')
      simp only [List.length_cons]
      omega

/-- C1: whenever the discovery response set contains two or more distinct
entries whose advertised port equals the configured LMS port,
`__discover_server` raises the multiple-servers `PySqueezeliteError` and
returns no address. -/
theorem c1_ambiguous_discovery (s : PySqueezelite) (responses : List (Option Device))
    (d1 d2 : Device)
    (h1 : d1 ∈ responses.filterMap id) (h2 : d2 ∈ responses.filterMap id)
    (hp1 : d1.port = s.lmsport) (hp2 : d2.port = s.lmsport) (hne : d1 ≠ d2) :
    s.discover_server responses =
      .error (.pySqueezeliteError (multipleServersMsg s.lmsport)) := by
  have hm1 : d1 ∈ (responses.filterMap id).filter (fun x => x.port == s.lmsport) :=
    List.mem_filter.mpr ⟨h1, by simp [hp1]⟩
  have hm2 : d2 ∈ (responses.filterMap id).filter (fun x => x.port == s.lmsport) :=
    List.mem_filter.mpr ⟨h2, by simp [hp2]⟩
  have hlen : 1 < (lmsMatches s responses).length := by
    unfold lmsMatches
    rw [List.length_map]
    exact one_lt_length_of_mem_ne hm1 hm2 hne
  unfold PySqueezelite.discover_server
  simp only [if_pos hlen]

def c1state : PySqueezelite :=
  { path := "/usr/bin/squeezelite", playername := "Squeezelite",
    mac := "12:34:56:78:90:AB", server := none, args := none,
    lmsport := 9000, telnetport := 9090,
    devices := none, matchList := none, sc := none, player := none }

def c1responses : List (Option Device) :=
  [some { ip := "192.168.1.50", port := 9000 }, none,
   some { ip := "192.168.1.51", port := 9000 }]

/-- C1 witness: two distinct devices on port 9000 make discovery fail. -/
theorem c1_ambiguous_discovery_witness :
    c1state.discover_server c1responses =
      .error (.pySqueezeliteError (multipleServersMsg 9000)) :=
  c1_ambiguous_discovery c1state c1responses
    { ip := "192.168.1.50", port := 9000 } { ip := "192.168.1.51", port := 9000 }
    (by decide) (by decide) (by decide) (by decide) (by decide)

/-- C2: whenever no entry of the discovery response set advertises the
configured LMS port, `__discover_server` raises the no-servers
`PySqueezeliteError`. -/
theorem c2_no_server_found (s : PySqueezelite) (responses : List (Option Device))
    (h : ∀ d ∈ responses.filterMap id, d.port ≠ s.lmsport) :
    s.discover_server responses =
      .error (.pySqueezeliteError (noServersMsg s.lmsport)) := by
  have hm : lmsMatches s responses = [] := by
    unfold lmsMatches
    have : (responses.filterMap id).filter (fun x => x.port == s.lmsport) = [] := by
      rw [List.filter_eq_nil_iff]
      intro a ha
      simp [h a ha]
    rw [this]
    rfl
  unfold PySqueezelite.discover_server
  rw [hm]
  rfl

def c2responses : List (Option Device) :=
  [some { ip := "192.168.1.50", port := 8080 }, none]

/-- C2 witness: a response set with no device on port 9000 makes discovery
fail with the no-servers error. -/
theorem c2_no_server_found_witness :
    c1state.discover_server c2responses =
      .error (.pySqueezeliteError (noServersMsg 9000)) :=
  c2_no_server_found c1state c2responses (by decide)

/-- C3: whenever exactly one entry of the discovery response set advertises
the configured LMS port, `__discover_server` returns that entry's address
verbatim and raises no error (the state is updated only with the `devices`
and `matches` assignments of lines 115 and 117). -/
theorem c3_single_match (s : PySqueezelite) (responses : List (Option Device))
    (d : Device)
    (h : (responses.filterMap id).filter (fun x => x.port == s.lmsport) = [d]) :
    s.discover_server responses =
      .ok (d.ip, { s with devices := some (responses.filterMap id),
                          matchList := some [d.ip] }) := by
  have hm : lmsMatches s responses = [d.ip] := by
    unfold lmsMatches
    rw [h]
    rfl
  unfold PySqueezelite.discover_server
  rw [hm]
  rfl

def c3responses : List (Option Device) :=
  [none, some { ip := "192.168.1.50", port := 9000 },
   some { ip := "10.0.0.9", port := 8080 }]

/-- C3 witness: exactly one device advertises port 9000 and its address is
returned verbatim. -/
theorem c3_single_match_witness :
    c1state.discover_server c3responses =
      .ok ("192.168.1.50",
           { c1state with
               devices := some [{ ip := "192.168.1.50", port := 9000 },
                                { ip := "10.0.0.9", port := 8080 }],
               matchList := some ["192.168.1.50"] }) :=
  c3_single_match c1state c3responses { ip := "192.168.1.50", port := 9000 } (by decide)

/-- C4: construction succeeds exactly when the binary path names an
existing file; when it does not, `__init__` raises the configuration
`PySqueezeliteError` with the cannot-find message; and in every case the
effect trace of `__init__` is empty, so no network or process activity
occurs at construction. -/
theorem c4_init_validates_path (isfile : String → Bool) (path plname mac : String)
    (server args : Option String) (lmsport telnetport : Nat) :
    (isfile path = false →
      (PySqueezelite.init isfile path plname mac server args lmsport telnetport).1 =
        .error (.pySqueezeliteError ("Can\x27t find squeezelite at " ++ path))) ∧
    exceptOk (PySqueezelite.init isfile path plname mac server args lmsport telnetport).1
      = isfile path ∧
    (PySqueezelite.init isfile path plname mac server args lmsport telnetport).2 = [] := by
  unfold PySqueezelite.init
  cases hf : isfile path <;> simp [hf, exceptOk]

/-- C4 witness: a filesystem without the binary makes construction fail
with the configuration error, and one with the binary makes it succeed;
neither produces any effect. -/
theorem c4_init_validates_path_witness :
    (PySqueezelite.init (fun _ => false) "/usr/bin/squeezelite" "Squeezelite"
        "12:34:56:78:90:AB" none none 9000 9090).1 =
      .error (.pySqueezeliteError
        ("Can\x27t find squeezelite at " ++ "/usr/bin/squeezelite")) ∧
    exceptOk (PySqueezelite.init (fun _ => true) "/usr/bin/squeezelite" "Squeezelite"
        "12:34:56:78:90:AB" none none 9000 9090).1 = true ∧
    (PySqueezelite.init (fun _ => false) "/usr/bin/squeezelite" "Squeezelite"
        "12:34:56:78:90:AB" none none 9000 9090).2 = [] :=
  ⟨(c4_init_validates_path (fun _ => false) "/usr/bin/squeezelite" "Squeezelite"
      "12:34:56:78:90:AB" none none 9000 9090).1 rfl,
   (c4_init_validates_path (fun _ => true) "/usr/bin/squeezelite" "Squeezelite"
      "12:34:56:78:90:AB" none none 9000 9090).2.1.trans (by decide),
   (c4_init_validates_path (fun _ => false) "/usr/bin/squeezelite" "Squeezelite"
      "12:34:56:78:90:AB" none none 9000 9090).2.2⟩

def c5config : PySqueezelite :=
  { path := "/usr/bin/squeezelite", playername := "Kitchen",
    mac := "AA:BB:CC:DD:EE:FF", server := some "10.0.0.5",
    args := some "--foo bar", lmsport := 9000, telnetport := 9090,
    devices := none, matchList := none, sc := none, player := none }

def c5env : Env :=
  { responses := [], getPlayer := fun _ => none, pidof := fun _ => none }

def c5command : List String :=
  ["/usr/bin/squeezelite", "-z", "-n", "Kitchen", "-m", "AA:BB:CC:DD:EE:FF",
   "-s", "10.0.0.5", "--foo bar"]

/-- C5 counterexample: with name Kitchen, mac AA:BB:CC:DD:EE:FF, server
10.0.0.5 and extra args string "--foo bar", the command `start` spawns is
`c5command`, in which neither "--foo" nor "bar" occurs as an individual
token: line 98 appends the extra-arguments string as one element. -/
theorem c5_counterexample :
    (c5config.start c5env).2 =
      [Effect.connectServer (some "10.0.0.5") 9090, Effect.spawn c5command] ∧
    "--foo" ∉ c5command ∧ "bar" ∉ c5command := by
  refine ⟨by decide, by decide, by decide⟩

/-- C5 (amended): for the Kitchen configuration, `start` spawns exactly the
argument list `[path, -z, -n, Kitchen, -m, AA:BB:CC:DD:EE:FF, -s,
10.0.0.5, "--foo bar"]` — the daemonize flag `-z` first after the binary
path, then the name, mac and server flag pairs, and the extra-arguments
string appended as a single verbatim token — regardless of the
environment (no discovery runs). -/
theorem c5_command_assembly (env : Env) :
    (c5config.start env).2 =
      [Effect.connectServer (some "10.0.0.5") 9090, Effect.spawn c5command] := by
  rfl

/-- C6: `start` performs the discovery effect exactly when the configured
server address is absent (falsy: `None` or empty); with a statically
configured (truthy) server address it never invokes discovery. -/
theorem c6_discovery_only_when_absent (s : PySqueezelite) (env : Env) :
    (truthyOpt s.server = true → Effect.discovery ∉ (s.start env).2) ∧
    (truthyOpt s.server = false → Effect.discovery ∈ (s.start env).2) := by
  constructor
  · intro h
    unfold PySqueezelite.start
    rw [h]
    simp [PySqueezelite.connect]
  · intro h
    unfold PySqueezelite.start
    rw [h]
    cases hd : s.discover_server env.responses with
    | error e => simp
    | ok v => simp [PySqueezelite.connect]

def c6env : Env :=
  { responses := [some { ip := "192.168.1.50", port := 9000 }],
    getPlayer := fun _ => none, pidof := fun _ => none }

/-- C6 witness: with server 10.0.0.5 configured, `start` performs no
discovery; with no server configured, it does. -/
theorem c6_discovery_only_when_absent_witness :
    Effect.discovery ∉ (c5config.start c6env).2 ∧
    Effect.discovery ∈ (c1state.start c6env).2 :=
  ⟨(c6_discovery_only_when_absent c5config c6env).1 (by decide),
   (c6_discovery_only_when_absent c1state c6env).2 (by decide)⟩

/-- C7: when the pidof lookup matches no running process,
`check_output` raises `CalledProcessError`, which `kill` propagates to
the caller, and no kill signal is sent. -/
theorem c7_kill_no_process (s : PySqueezelite) (env : Env)
    (h : env.pidof s.path = none) :
    (s.kill env).1 = .error (.calledProcessError ["pidof", s.path]) ∧
    ∀ p, Effect.killSignal p ∉ (s.kill env).2 := by
  unfold PySqueezelite.kill
  rw [h]
  exact ⟨rfl, by intro p hp; simp at hp⟩

/-- C7 witness: with no squeezelite process running, `kill` surfaces the
process error and sends no signal. -/
theorem c7_kill_no_process_witness :
    (c1state.kill c5env).1 =
      .error (.calledProcessError ["pidof", "/usr/bin/squeezelite"]) ∧
    Effect.killSignal "1234" ∉ (c1state.kill c5env).2 :=
  ⟨(c7_kill_no_process c1state c5env rfl).1,
   (c7_kill_no_process c1state c5env rfl).2 "1234"⟩

/-- C8: with a resolved player handle, `get_player_info` returns the
attribute dispatch result: the invoked attribute value for a supported
query name, and the sentinel `None` for an unsupported one; being a total
function, it raises nothing. -/
theorem c8_player_info_dispatch (s : PySqueezelite) (p : Player) (info : String)
    (h : s.player = some p) :
    (s.get_player_info info).1 = p.attrs info := by
  unfold PySqueezelite.get_player_info
  rw [h]

def c8player : Player :=
  { attrs := fun i => if i == "get_track_title" then some "Song" else none }

def c8state : PySqueezelite :=
  { c1state with player := some c8player }

/-- C8 witness: the supported name returns the attribute result and an
unsupported name returns the sentinel. -/
theorem c8_player_info_dispatch_witness :
    (c8state.get_player_info "get_track_title").1 = some "Song" ∧
    (c8state.get_player_info "bogus").1 = none :=
  ⟨(c8_player_info_dispatch c8state c8player "get_track_title" rfl).trans (by decide),
   (c8_player_info_dispatch c8state c8player "bogus" rfl).trans (by decide)⟩

/-- C10: `get_player_info` leaves the whole instance state unchanged (in
particular the session handle `sc` and the player handle) and performs no
effect: the line-141 guard `self.connect` references the method without
invoking it, so no connection is ever established by this operation. -/
theorem c10_player_info_frame (s : PySqueezelite) (info : String) :
    (s.get_player_info info).2.1 = s ∧ (s.get_player_info info).2.2 = [] :=
  ⟨rfl, rfl⟩

def c9result : PySqueezelite :=
  match (c1state.start c6env).1 with
  | .ok s' => s'
  | .error _ => c1state

/-- C9 counterexample: on an instance constructed without a server address,
`start` successfully runs and writes the discovered address into the
server configuration field (line 77: `self.server = self.__discover_server()`),
so the configuration is not immutable. -/
theorem c9_counterexample :
    c1state.server = none ∧
    exceptOk (c1state.start c6env).1 = true ∧
    c9result.server = some "192.168.1.50" := by
  refine ⟨rfl, ?_, ?_⟩ <;> rfl

/-- Success of `__discover_server` changes only the `devices` and
`matches` fields: every configuration field is preserved. -/
theorem discover_server_config_frame (s : PySqueezelite)
    (responses : List (Option Device)) (ip : String) (s' : PySqueezelite)
    (h : s.discover_server responses = .ok (ip, s')) :
    s'.path = s.path ∧ s'.playername = s.playername ∧ s'.mac = s.mac ∧
    s'.server = s.server ∧ s'.args = s.args ∧ s'.lmsport = s.lmsport ∧
    s'.telnetport = s.telnetport := by
  unfold PySqueezelite.discover_server at h
  dsimp only at h
  split at h
  · exact absurd h (by simp)
  · split at h
    · exact absurd h (by simp)
    · injection h with h1
      injection h1 with h2 h3
      subst h3
      exact ⟨rfl, rfl, rfl, rfl, rfl, rfl, rfl⟩

/-- C9 (amended): every configuration field other than the server address
is immutable under the operations (`start`, `connect`, `get_player_info`;
`kill` and the playback commands assign no instance attribute at all in
the source, which the embedding reflects by giving them no state output).
The server address itself is preserved by `connect` and `get_player_info`,
and by `start` whenever it was statically configured (truthy); it is
written by `start` only when it was previously absent, with the discovery
result. -/
theorem c9_config_frame (s : PySqueezelite) (env : Env) :
    (∀ s', (s.start env).1 = .ok s' →
      s'.path = s.path ∧ s'.playername = s.playername ∧ s'.mac = s.mac ∧
      s'.args = s.args ∧ s'.lmsport = s.lmsport ∧ s'.telnetport = s.telnetport ∧
      (truthyOpt s.server = true → s'.server = s.server)) ∧
    (∀ hostname port,
      ((s.connect env hostname port).1).path = s.path ∧
      ((s.connect env hostname port).1).playername = s.playername ∧
      ((s.connect env hostname port).1).mac = s.mac ∧
      ((s.connect env hostname port).1).server = s.server ∧
      ((s.connect env hostname port).1).args = s.args ∧
      ((s.connect env hostname port).1).lmsport = s.lmsport ∧
      ((s.connect env hostname port).1).telnetport = s.telnetport) ∧
    (∀ info, (s.get_player_info info).2.1 = s) := by
  refine ⟨?_, ?_, ?_⟩
  · intro s' h
    unfold PySqueezelite.start at h
    by_cases ht : truthyOpt s.server = true
    · rw [ht] at h
      simp only [PySqueezelite.connect] at h
      injection h with h1
      subst h1
      exact ⟨rfl, rfl, rfl, rfl, rfl, rfl, fun _ => rfl⟩
    · rw [Bool.not_eq_true] at ht
      rw [ht] at h
      cases hd : s.discover_server env.responses with
      | error e =>
        rw [hd] at h
        exact absurd h (by simp)
      | ok v =>
        rw [hd] at h
        obtain ⟨ip, sd⟩ := v
        have hframe := discover_server_config_frame s env.responses ip sd hd
        simp only [PySqueezelite.connect] at h
        injection h with h1
        subst h1
        refine ⟨hframe.1, hframe.2.1, hframe.2.2.1, hframe.2.2.2.2.1,
                hframe.2.2.2.2.2.1, hframe.2.2.2.2.2.2, ?_⟩
        intro habs
        rw [habs] at ht
        cases ht
  · intro hostname port
    exact ⟨rfl, rfl, rfl, rfl, rfl, rfl, rfl⟩
  · intro info
    rfl

def c9truthyResult : PySqueezelite :=
  match (c5config.start c6env).1 with
  | .ok s' => s'
  | .error _ => c5config

/-- C9 (amended) witness: after a discovering `start` the non-server
configuration fields are unchanged, and after a statically configured
`start` the server field is also unchanged. -/
theorem c9_config_frame_witness :
    c9result.path = c1state.path ∧ c9result.playername = c1state.playername ∧
    c9result.mac = c1state.mac ∧ c9result.args = c1state.args ∧
    c9result.lmsport = c1state.lmsport ∧ c9result.telnetport = c1state.telnetport ∧
    c9truthyResult.server = c5config.server ∧
    ((c8state.get_player_info "get_track_title").2.1) = c8state :=
  ⟨((c9_config_frame c1state c6env).1 c9result rfl).1,
   ((c9_config_frame c1state c6env).1 c9result rfl).2.1,
   ((c9_config_frame c1state c6env).1 c9result rfl).2.2.1,
   ((c9_config_frame c1state c6env).1 c9result rfl).2.2.2.1,
   ((c9_config_frame c1state c6env).1 c9result rfl).2.2.2.2.1,
   ((c9_config_frame c1state c6env).1 c9result rfl).2.2.2.2.2.1,
   ((c9_config_frame c5config c6env).1 c9truthyResult rfl).2.2.2.2.2.2 (by decide),
   (c9_config_frame c8state c6env).2.2 "get_track_title"⟩
